import Mathlib

/-!
Verification of the AdOps campaign-optimization decision engine
(src/optimizer.py) against its natural-language specification.

Numbers are modelled as exact rationals (ℚ).  Python's builtin
round-half-to-even is modelled by rhe / round2; monetary strings are
rebuilt by fmt2.  Nullable columns are Option-valued.  Each definition
below mirrors one function of src/optimizer.py; spec-side comparison
definitions carry PerSpec in their name.
-/

namespace AdOps

/-- A merged campaign record after clean_nulls: the fields of the
pandas row that the decision engine reads.  roiD7 / roiD2nd are the
two parsed KPI columns (non-null after the null filter); segment,
progression and discard are the derived columns the pipeline adds. -/
structure Row where
  spend : ℚ
  preloads : ℚ
  installs : Option ℚ
  fillRate : Option ℚ
  status : String
  bidRate : ℚ
  effectiveBidFloor : Option ℚ
  highTier : Option ℚ
  roiD7 : ℚ
  roiD2nd : ℚ
  segment : String
  progression : String
  discard : Bool
  deriving DecidableEq, Repr

/-- weighted_score of optimizer.py: w_d7 * roi_d7 + w_d2nd * roi_d2nd,
with the source's default weights 0.80 / 0.20. -/
def weighted_score (roi_d7 roi_d2nd : ℚ) (w_d7 : ℚ := 4/5) (w_d2nd : ℚ := 1/5) : ℚ :=
  w_d7 * roi_d7 + w_d2nd * roi_d2nd

/-- kpi_target of optimizer.py: w_d7 * kpi_d7 + w_d2nd * kpi_d2nd,
with the source's default weights 0.80 / 0.20. -/
def kpi_target (kpi_d7 kpi_d2nd : ℚ) (w_d7 : ℚ := 4/5) (w_d2nd : ℚ := 1/5) : ℚ :=
  w_d7 * kpi_d7 + w_d2nd * kpi_d2nd

/-- segment_row of optimizer.py.  In the source the division
(target - score) / target raises ZeroDivisionError when target = 0;
here ℚ-division totalizes it (segment_rowChecked makes the raising
division explicit). -/
def segment_row (roi_d7 roi_d2nd kpi_d7 kpi_d2nd : ℚ) : String :=
  let score := weighted_score roi_d7 roi_d2nd
  let target := kpi_target kpi_d7 kpi_d2nd
  if score ≥ target then "green"
  else if roi_d7 = 0 ∧ roi_d2nd = 0 then "red"
  else
    let pct_below := (target - score) / target
    if pct_below ≤ 1/2 then "yellow"
    else if pct_below < 1 then "orange"
    else "red"

/-- segment_single of optimizer.py: one ROI value against its own KPI. -/
def segment_single (val kpi : ℚ) : String :=
  if val ≥ kpi then "green"
  else if val = 0 then "red"
  else
    let pct_below := (kpi - val) / kpi
    if pct_below ≤ 1/2 then "yellow"
    else if pct_below < 1 then "orange"
    else "red"

/-- get_progression of optimizer.py: whale protection D7 = 0 → flat. -/
def get_progression (roi_d7 roi_d2nd : ℚ) : String :=
  if roi_d7 = 0 then "flat"
  else if roi_d2nd > roi_d7 then "good"
  else if roi_d2nd < roi_d7 then "poor"
  else "flat"

/-- Python's str.lower() for the ASCII statuses the data carries,
written over the character list so it evaluates in the kernel. -/
def py_lower (s : String) : String := ⟨s.data.map Char.toLower⟩

/-- should_discard of optimizer.py, rules evaluated top to bottom. -/
def should_discard (row : Row) : Bool :=
  let installs := row.installs.getD 0
  let fill_rate := row.fillRate.getD 0
  let d7 := row.roiD7
  if row.segment = "green" ∧ installs ≥ 5 then false
  else if row.progression = "good" ∧ fill_rate < 3/5 ∧ d7 > 0 ∧ row.spend ≥ 100 then false
  else if row.spend < 100 then true
  else if row.preloads < 100 then true
  else if py_lower row.status = "paused" ∧ ¬ (row.segment = "green") then true
  else false

/-- Round-half-to-even to an integer, the behaviour of Python's builtin
round on an exactly representable value. -/
def rhe (q : ℚ) : ℤ :=
  let f : ℤ := ⌊q⌋
  let r : ℚ := q - (f : ℚ)
  if r < 1/2 then f
  else if 1/2 < r then f + 1
  else if f % 2 = 0 then f else f + 1

/-- round(x, 2) of Python: round-half-to-even at two decimals. -/
def round2 (q : ℚ) : ℚ := (rhe (q * 100) : ℚ) / 100

/-- Python's f-string :.2f formatting for a value that is a whole
number of cents (all call sites format an already round2-ed value). -/
def fmt2 (q : ℚ) : String :=
  let c : ℤ := ⌊q * 100⌋
  let sign := if c < 0 then "-" else ""
  let a : ℕ := c.natAbs
  sign ++ toString (a / 100) ++ "." ++ (if a % 100 < 10 then "0" else "") ++ toString (a % 100)

/-- The at-floor test both get_daily_cap_suggestion and optimize_bid
compute: floor is not None and bid <= floor. -/
def at_floor_check (floor : Option ℚ) (bid : ℚ) : Bool :=
  match floor with
  | some f => decide (bid ≤ f)
  | none => false

/-- get_daily_cap_suggestion of optimizer.py. -/
def get_daily_cap_suggestion (row : Row) : Option String :=
  if row.spend ≤ 1000 then none
  else if row.roiD7 = 0 ∧ row.roiD2nd = 0 then some "Suggest pause"
  else if at_floor_check row.effectiveBidFloor row.bidRate ∧ (row.roiD7 > 0 ∨ row.roiD2nd > 0) then
    let daily := round2 (row.spend / 30 * (1/2))
    some ("Add daily cap $" ++ fmt2 daily)
  else none

/-- pct_above of optimize_bid (src line 236): (score - target) / target
when target > 0, else 0. -/
def pct_above (score target : ℚ) : ℚ :=
  if target > 0 then (score - target) / target else 0

/-- pct_below of optimize_bid (src line 237): (target - score) / target
when target > 0, else 1. -/
def pct_below (score target : ℚ) : ℚ :=
  if target > 0 then (target - score) / target else 1

/-- apply_floor of optimize_bid: clamp a candidate bid at the floor,
superseding the label; both outcomes re-round. -/
def apply_floor (floor : Option ℚ) (new_bid : ℚ) : ℚ × Option String :=
  match floor with
  | some f => if new_bid < f then (round2 f, some "Meet bid floor") else (round2 new_bid, none)
  | none => (round2 new_bid, none)

/-- The label f-string Increase bid {int(pct*100)}% of apply_high_tier. -/
def incLabel (pct : ℚ) : String :=
  "Increase bid " ++ toString (⌊pct * 100⌋ : ℤ) ++ "%"

/-- The label f-string Decrease bid {int(pct*100)}% of the yellow and
orange branches. -/
def decLabel (pct : ℚ) : String :=
  "Decrease bid " ++ toString (⌊pct * 100⌋ : ℤ) ++ "%"

/-- apply_high_tier of optimize_bid: cap the new bid at highTier; if
the current bid already exceeds the tier and fill is below 70%, allow
bid * 1.15 with a forced 15% label. -/
def apply_high_tier (high_tier : Option ℚ) (bid fill_rate new_bid pct : ℚ) : ℚ × String :=
  match high_tier with
  | none => (round2 new_bid, incLabel pct)
  | some ht =>
    if bid > ht ∧ fill_rate < 7/10 then (round2 (bid * (115/100)), "Increase bid 15%")
    else (round2 (min new_bid ht), incLabel pct)

/-- The return pattern shared by every bid-producing branch of
optimize_bid: floored, floor_action = apply_floor(new_bid); if
floor_action: return floor_action, floored; return label, new_bid. -/
def finishBid (floor : Option ℚ) (new_bid : ℚ) (label : String) : Option String × Option ℚ :=
  match apply_floor floor new_bid with
  | (floored, some fa) => (some fa, some floored)
  | (_, none) => (some label, some new_bid)

/-- The good-progression increase percentage: 0.15 when
ratio = roi_d2nd / roi_d7 (guarded, 1 when roi_d7 is 0) reaches 2.0,
else 0.10. -/
def goodIncreasePct (roi_d7 roi_d2nd : ℚ) : ℚ :=
  if (if roi_d7 > 0 then roi_d2nd / roi_d7 else 1) ≥ 2 then 15/100 else 10/100

/-- The green-segment increase percentage below the 0.80 fill band:
flat 0.15 when fill is above 0.60, else the proportional 10/20/30 per
cent keyed to pct_above. -/
def greenIncreasePct (fill_rate pct_above_v : ℚ) : ℚ :=
  if fill_rate > 3/5 then 15/100
  else if pct_above_v ≤ 1/4 then 10/100
  else if pct_above_v ≤ 1/2 then 20/100
  else 30/100

/-- The yellow-segment decrease percentage: 0.10 when pct_below ≤ 0.25
else 0.15. -/
def yellowDecreasePct (pct_below_v : ℚ) : ℚ :=
  if pct_below_v ≤ 1/4 then 10/100 else 15/100

/-- The orange-segment decrease percentage: 0.20 when pct_below ≤ 0.75
else 0.25. -/
def orangeDecreasePct (pct_below_v : ℚ) : ℚ :=
  if pct_below_v ≤ 3/4 then 20/100 else 25/100

/-- The green high-fill candidate bid: bid * 1.15 rounded, then capped
at highTier (re-rounded) when the tier is present. -/
def greenHighFillBid (high_tier : Option ℚ) (bid : ℚ) : ℚ :=
  match high_tier with
  | some ht => round2 (min (round2 (bid * (115/100))) ht)
  | none => round2 (bid * (115/100))

/-- optimize_bid of optimizer.py: the branching bid policy, returning
(action label, recommended bid).  The source's local bindings floor,
bid, high_tier, fill_rate, installs, score, target, pct_above and
pct_below are inlined as row projections and calls. -/
def optimize_bid (row : Row) (kpi_d7 kpi_d2nd : ℚ) : Option String × Option ℚ :=
  if row.discard then (none, none)
  else if at_floor_check row.effectiveBidFloor row.bidRate then (none, none)
  else if row.progression = "good" ∧ row.fillRate.getD 0 < 3/5 ∧ row.roiD7 > 0 then
    finishBid row.effectiveBidFloor
      (apply_high_tier row.highTier row.bidRate (row.fillRate.getD 0)
        (round2 (row.bidRate * (1 + goodIncreasePct row.roiD7 row.roiD2nd)))
        (goodIncreasePct row.roiD7 row.roiD2nd)).1
      (apply_high_tier row.highTier row.bidRate (row.fillRate.getD 0)
        (round2 (row.bidRate * (1 + goodIncreasePct row.roiD7 row.roiD2nd)))
        (goodIncreasePct row.roiD7 row.roiD2nd)).2
  else if row.progression = "poor" then
    if row.spend < 100 then (none, none)
    else if segment_single row.roiD2nd kpi_d2nd = "yellow" ∨
        segment_single row.roiD2nd kpi_d2nd = "orange" ∨
        segment_single row.roiD2nd kpi_d2nd = "red" then
      finishBid row.effectiveBidFloor (round2 (row.bidRate * (9/10))) "Decrease bid 10%"
    else (none, none)
  else if row.segment = "green" then
    if row.installs.getD 0 < 5 then (none, none)
    else if row.fillRate.getD 0 > 4/5 then
      finishBid row.effectiveBidFloor (greenHighFillBid row.highTier row.bidRate)
        "Increase bid 15%"
    else
      finishBid row.effectiveBidFloor
        (apply_high_tier row.highTier row.bidRate (row.fillRate.getD 0)
          (round2 (row.bidRate * (1 + greenIncreasePct (row.fillRate.getD 0)
            (pct_above (weighted_score row.roiD7 row.roiD2nd) (kpi_target kpi_d7 kpi_d2nd)))))
          (greenIncreasePct (row.fillRate.getD 0)
            (pct_above (weighted_score row.roiD7 row.roiD2nd) (kpi_target kpi_d7 kpi_d2nd)))).1
        (apply_high_tier row.highTier row.bidRate (row.fillRate.getD 0)
          (round2 (row.bidRate * (1 + greenIncreasePct (row.fillRate.getD 0)
            (pct_above (weighted_score row.roiD7 row.roiD2nd) (kpi_target kpi_d7 kpi_d2nd)))))
          (greenIncreasePct (row.fillRate.getD 0)
            (pct_above (weighted_score row.roiD7 row.roiD2nd) (kpi_target kpi_d7 kpi_d2nd)))).2
  else if row.segment = "yellow" then
    finishBid row.effectiveBidFloor
      (round2 (row.bidRate * (1 - yellowDecreasePct
        (pct_below (weighted_score row.roiD7 row.roiD2nd) (kpi_target kpi_d7 kpi_d2nd)))))
      (decLabel (yellowDecreasePct
        (pct_below (weighted_score row.roiD7 row.roiD2nd) (kpi_target kpi_d7 kpi_d2nd))))
  else if row.segment = "orange" then
    finishBid row.effectiveBidFloor
      (round2 (row.bidRate * (1 - orangeDecreasePct
        (pct_below (weighted_score row.roiD7 row.roiD2nd) (kpi_target kpi_d7 kpi_d2nd)))))
      (decLabel (orangeDecreasePct
        (pct_below (weighted_score row.roiD7 row.roiD2nd) (kpi_target kpi_d7 kpi_d2nd))))
  else
    finishBid row.effectiveBidFloor (round2 (row.bidRate * (7/10))) "Decrease bid 30%"

/-- add_segments of optimizer.py, per row: attach segment and
progression columns. -/
def add_segments_row (kpi_d7 kpi_d2nd : ℚ) (r : Row) : Row :=
  { r with segment := segment_row r.roiD7 r.roiD2nd kpi_d7 kpi_d2nd,
           progression := get_progression r.roiD7 r.roiD2nd }

/-- The discard column assignment of run_optimization. -/
def mark_discard (r : Row) : Row :=
  { r with discard := should_discard r }

/-- One output row of run_optimization: the enriched record plus the
three result columns. -/
structure OutRow where
  row : Row
  dailyCapSuggestion : Option String
  action : Option String
  recommendedBid : Option ℚ
  deriving DecidableEq, Repr

/-- The per-row core of run_optimization (after the excluded I/O
collaborators load / merge / clean_nulls): segmentation, discard,
daily cap, bid optimization.  The source performs no configuration
validation, so this function is total and has no error outcome. -/
def run_core (kpi_d7 kpi_d2nd : ℚ) (rows : List Row) : List OutRow :=
  rows.map (fun r0 =>
    let r := mark_discard (add_segments_row kpi_d7 kpi_d2nd r0)
    let ab := optimize_bid r kpi_d7 kpi_d2nd
    ⟨r, get_daily_cap_suggestion r, ab.1, ab.2⟩)

/-! Spec-side comparison definitions, written from the specification's
words rather than from the source. -/

/-- The segment contract as the spec states it (weights 0.8/0.2):
green when score ≥ target; else red when both KPIs are exactly 0;
else pctBelow = (target − score)/target, ≤ 0.50 yellow, < 1.0 orange,
otherwise red. -/
def segmentPerSpec (p s tP tS : ℚ) : String :=
  let score := (4/5) * p + (1/5) * s
  let target := (4/5) * tP + (1/5) * tS
  if score ≥ target then "green"
  else if p = 0 ∧ s = 0 then "red"
  else
    let pctBelow := (target - score) / target
    if pctBelow ≤ 1/2 then "yellow"
    else if pctBelow < 1 then "orange"
    else "red"

/-- The segment contract with the caller-supplied weightPrimary and
weightSecondary the spec's RunConfig prescribes, written from the
spec's words: score = wP·primaryKPI + wS·secondaryKPI and likewise the
target. -/
def segmentWeightedPerSpec (wP wS p s tP tS : ℚ) : String :=
  let score := wP * p + wS * s
  let target := wP * tP + wS * tS
  if score ≥ target then "green"
  else if p = 0 ∧ s = 0 then "red"
  else
    let pctBelow := (target - score) / target
    if pctBelow ≤ 1/2 then "yellow"
    else if pctBelow < 1 then "orange"
    else "red"

/-- Discard rule 1 of the spec contract: segment green AND installs ≥ 5
→ not discarded. -/
def discardRule1 (r : Row) : Option Bool :=
  if r.segment = "green" ∧ r.installs.getD 0 ≥ 5 then some false else none

/-- Discard rule 2: progression good AND fillRate < 0.60 AND
primaryKPI > 0 AND spend ≥ 100 → not discarded. -/
def discardRule2 (r : Row) : Option Bool :=
  if r.progression = "good" ∧ r.fillRate.getD 0 < 3/5 ∧ r.roiD7 > 0 ∧ r.spend ≥ 100 then
    some false
  else none

/-- Discard rule 3: spend < 100 → discard. -/
def discardRule3 (r : Row) : Option Bool :=
  if r.spend < 100 then some true else none

/-- Discard rule 4: preloads < 100 → discard. -/
def discardRule4 (r : Row) : Option Bool :=
  if r.preloads < 100 then some true else none

/-- Discard rule 5: status case-insensitively equal to paused AND
segment not green → discard. -/
def discardRule5 (r : Row) : Option Bool :=
  if py_lower r.status = "paused" ∧ ¬ (r.segment = "green") then some true else none

/-- The spec's discard contract: the ordered rules evaluated with
first-true-wins, defaulting to not discarded. -/
def discardPerSpec (r : Row) : Bool :=
  (([discardRule1, discardRule2, discardRule3, discardRule4,
     discardRule5].findSome? (fun rule => rule r)).getD false)

/-- The spec's daily-cap contract: null when spend ≤ 1000; above that,
pause when both KPIs are exactly 0; a cap of round(spend/30 × 0.50, 2)
formatted to two decimals when bidRate ≤ effectiveBidFloor and at
least one KPI > 0; null otherwise. -/
def capPerSpec (r : Row) : Option String :=
  if r.spend ≤ 1000 then none
  else if r.roiD7 = 0 ∧ r.roiD2nd = 0 then some "Suggest pause"
  else if at_floor_check r.effectiveBidFloor r.bidRate ∧ (r.roiD7 > 0 ∨ r.roiD2nd > 0) then
    some ("Add daily cap $" ++ fmt2 (round2 (r.spend / 30 * (1/2))))
  else none

/-- Standard half-up rounding at two decimals, the mode the spec
prescribes for monetary outputs. -/
def roundHalfUp2 (q : ℚ) : ℚ := (⌊q * 100 + 1/2⌋ : ℚ) / 100

/-- A value that is a whole number of cents, i.e. already rounded to
two decimal places. -/
def isCent (q : ℚ) : Prop := ∃ n : ℤ, q = (n : ℚ) / 100

/-- Division as the Python source performs it: raising — here, none —
when the divisor is zero. -/
def qdiv (a b : ℚ) : Option ℚ := if b = 0 then none else some (a / b)

/-- segment_row with the source's raising division made explicit: none
exactly where the Python code would raise ZeroDivisionError. -/
def segment_rowChecked (roi_d7 roi_d2nd kpi_d7 kpi_d2nd : ℚ) : Option String :=
  let score := weighted_score roi_d7 roi_d2nd
  let target := kpi_target kpi_d7 kpi_d2nd
  if score ≥ target then some "green"
  else if roi_d7 = 0 ∧ roi_d2nd = 0 then some "red"
  else
    match qdiv (target - score) target with
    | none => none
    | some pct_below =>
      if pct_below ≤ 1/2 then some "yellow"
      else if pct_below < 1 then some "orange"
      else some "red"

/-- segment_single with the source's raising division made explicit. -/
def segment_singleChecked (val kpi : ℚ) : Option String :=
  if val ≥ kpi then some "green"
  else if val = 0 then some "red"
  else
    match qdiv (kpi - val) kpi with
    | none => none
    | some pct_below =>
      if pct_below ≤ 1/2 then some "yellow"
      else if pct_below < 1 then some "orange"
      else some "red"

/-! Concrete records used to instantiate the theorems. -/

/-- A red-segment record whose bid floor 0.125 is not a whole number
of cents: spend 200, preloads 200, bid 0.15, floor 0.125, both KPIs 0. -/
def rowFloorEighth : Row :=
  { spend := 200
    preloads := 200
    installs := some 0
    fillRate := some 0
    status := "active"
    bidRate := 3/20
    effectiveBidFloor := some (1/8)
    highTier := none
    roiD7 := 0
    roiD2nd := 0
    segment := ""
    progression := ""
    discard := false }

/-- A red-segment record with a whole-cent floor 0.50 and bid 1.00. -/
def rowRedHalf : Row :=
  { spend := 200
    preloads := 200
    installs := some 0
    fillRate := some 0
    status := "active"
    bidRate := 1
    effectiveBidFloor := some (1/2)
    highTier := none
    roiD7 := 0
    roiD2nd := 0
    segment := "red"
    progression := "flat"
    discard := false }

/-- Scenario E of the spec: spend 1500, floor 0.50, bid at floor,
primary KPI 0.02. -/
def rowScenarioE : Row :=
  { spend := 1500
    preloads := 200
    installs := some 0
    fillRate := some 0
    status := "active"
    bidRate := 1/2
    effectiveBidFloor := some (1/2)
    highTier := none
    roiD7 := 1/50
    roiD2nd := 0
    segment := ""
    progression := ""
    discard := false }

/-- A high-spend at-floor record whose spend 1447.50 makes the cap
amount land exactly on half a cent: 1447.5/30 × 0.50 = 24.125. -/
def rowHalfCent : Row :=
  { spend := 2895/2
    preloads := 200
    installs := some 0
    fillRate := some 0
    status := "active"
    bidRate := 1/2
    effectiveBidFloor := some (1/2)
    highTier := none
    roiD7 := 1/50
    roiD2nd := 0
    segment := ""
    progression := ""
    discard := false }

/-- Scenario C of the spec: spend 50, preloads 200, status active,
installs 0, green segment. -/
def rowScenarioC : Row :=
  { spend := 50
    preloads := 200
    installs := some 0
    fillRate := some 0
    status := "active"
    bidRate := 1
    effectiveBidFloor := none
    highTier := none
    roiD7 := 1/100
    roiD2nd := 1/100
    segment := "green"
    progression := "flat"
    discard := false }

/-- A healthy record fed to run_core with a non-positive primary
target: spend 500, installs 10, fill 0.50, both KPIs 0.01. -/
def rowHealthy : Row :=
  { spend := 500
    preloads := 200
    installs := some 10
    fillRate := some (1/2)
    status := "active"
    bidRate := 1
    effectiveBidFloor := none
    highTier := none
    roiD7 := 1/100
    roiD2nd := 1/100
    segment := ""
    progression := ""
    discard := false }

end AdOps

namespace AdOps

/-- Round-half-to-even never rounds down by more than one half. -/
theorem rhe_ge (q : ℚ) : q - 1/2 ≤ (rhe q : ℚ) := by
  have hfl : (⌊q⌋ : ℚ) ≤ q := Int.floor_le q
  have hfu : q < (⌊q⌋ : ℚ) + 1 := Int.lt_floor_add_one q
  simp only [rhe]
  split_ifs with h1 h2 h3 <;> push_cast <;> linarith

/-- round2 never rounds down by more than half a cent. -/
theorem round2_ge (q : ℚ) : q - 1/200 ≤ round2 q := by
  unfold round2
  linarith [rhe_ge (q * 100)]

/-- Every round2 output is a whole number of cents. -/
theorem isCent_round2 (q : ℚ) : isCent (round2 q) := ⟨rhe (q * 100), rfl⟩

/-- The bid component of apply_high_tier is always a whole number of
cents. -/
theorem apply_high_tier_cent (ht : Option ℚ) (b fr nb pct : ℚ) :
    isCent (apply_high_tier ht b fr nb pct).1 := by
  unfold apply_high_tier
  cases ht with
  | none => exact isCent_round2 _
  | some t =>
    by_cases h : b > t ∧ fr < 7/10
    · simp only [if_pos h]; exact isCent_round2 _
    · simp only [if_neg h]; exact isCent_round2 _

/-- The greenHighFillBid candidate is always a whole number of cents. -/
theorem greenHighFillBid_cent (ht : Option ℚ) (b : ℚ) :
    isCent (greenHighFillBid ht b) := by
  unfold greenHighFillBid
  cases ht with
  | none => exact isCent_round2 _
  | some t => exact isCent_round2 _

/-- Complete characterization of the shared return pattern. -/
theorem finishBid_spec (fl : Option ℚ) (nb : ℚ) (lb : String) :
    ((∀ f, fl = some f → f ≤ nb) ∧ finishBid fl nb lb = (some lb, some nb)) ∨
    (∃ f, fl = some f ∧ nb < f ∧
      finishBid fl nb lb = (some "Meet bid floor", some (round2 f))) := by
  unfold finishBid apply_floor
  cases fl with
  | none =>
    left
    exact ⟨fun f h => Option.noConfusion h, rfl⟩
  | some f =>
    by_cases h : nb < f
    · right
      refine ⟨f, rfl, h, ?_⟩
      simp only [if_pos h]
    · left
      refine ⟨fun g hg => ?_, ?_⟩
      · cases hg
        exact le_of_not_lt h
      · simp only [if_neg h]

/-- Shape of optimize_bid: every branch either declines to act or
hands a whole-cent candidate bid and a label to the shared
floor-clamping return pattern. -/
theorem optimize_bid_shape (row : Row) (k1 k2 : ℚ) :
    optimize_bid row k1 k2 = (none, none) ∨
    ∃ nb lb, isCent nb ∧ optimize_bid row k1 k2 = finishBid row.effectiveBidFloor nb lb := by
  unfold optimize_bid
  split
  · exact Or.inl rfl
  split
  · exact Or.inl rfl
  split
  · exact Or.inr ⟨_, _, apply_high_tier_cent _ _ _ _ _, rfl⟩
  split
  · split
    · exact Or.inl rfl
    · split
      · exact Or.inr ⟨_, _, isCent_round2 _, rfl⟩
      · exact Or.inl rfl
  split
  · split
    · exact Or.inl rfl
    · split
      · exact Or.inr ⟨_, _, greenHighFillBid_cent _ _, rfl⟩
      · exact Or.inr ⟨_, _, apply_high_tier_cent _ _ _ _ _, rfl⟩
  split
  · exact Or.inr ⟨_, _, isCent_round2 _, rfl⟩
  split
  · exact Or.inr ⟨_, _, isCent_round2 _, rfl⟩
  exact Or.inr ⟨_, _, isCent_round2 _, rfl⟩

end AdOps

namespace AdOps

/-- The lowercasing of the status literal carried by the concrete
rows of this development. -/
theorem py_lower_active : py_lower "active" = "active" := by decide

/-- C9: for every input record the bid optimizer returns the action
label and the recommended bid together or not at all: the pair is
either (null, null) or both components are non-null — no branch ever
produces an action label without a numeric bid, or a bid without a
label. -/
theorem optimize_bid_pairing (row : Row) (k1 k2 : ℚ) :
    optimize_bid row k1 k2 = (none, none) ∨
    ∃ l b, optimize_bid row k1 k2 = (some l, some b) := by
  rcases optimize_bid_shape row k1 k2 with h | ⟨nb, lb, _, h⟩
  · exact Or.inl h
  · right
    rcases finishBid_spec row.effectiveBidFloor nb lb with ⟨_, hf⟩ | ⟨f, _, _, hf⟩
    · exact ⟨lb, nb, h.trans hf⟩
    · exact ⟨"Meet bid floor", round2 f, h.trans hf⟩

/-- C1 (amended): whenever effectiveBidFloor is present and a bid
adjustment is produced, the recommended bid is never more than half a
cent below the floor, and either it is at or above the floor, or the
clamp fired, in which case the action label is exactly Meet bid floor
(superseding the branch's own label) and the bid equals the floor
rounded half-even to two decimals — which can fall below the floor,
as it does at floor 0.125. -/
theorem floor_invariant_amended (row : Row) (k1 k2 f : ℚ) (l : String) (b : ℚ)
    (hf : row.effectiveBidFloor = some f)
    (hb : optimize_bid row k1 k2 = (some l, some b)) :
    f - 1/200 ≤ b ∧ (f ≤ b ∨ (l = "Meet bid floor" ∧ b = round2 f)) := by
  rcases optimize_bid_shape row k1 k2 with h | ⟨nb, lb, _, h⟩
  · rw [h] at hb
    injection hb with h1 h2
    exact Option.noConfusion h1
  · rw [h] at hb
    rcases finishBid_spec row.effectiveBidFloor nb lb with ⟨hge, hfin⟩ | ⟨g, hg, hlt, hfin⟩
    · rw [hfin] at hb
      injection hb with h1 h2
      injection h1 with h1
      injection h2 with h2
      subst h1; subst h2
      have hfb : f ≤ nb := hge f hf
      exact ⟨by linarith, Or.inl hfb⟩
    · obtain rfl : g = f := Option.some.inj (hg.symm.trans hf)
      rw [hfin] at hb
      injection hb with h1 h2
      injection h1 with h1
      injection h2 with h2
      subst h1; subst h2
      exact ⟨round2_ge g, Or.inr ⟨rfl, rfl⟩⟩

/-- C5 (amended): every monetary output of the engine is rounded to
two decimal places at the point of computation — every recommended
bid the optimizer emits is a whole number of cents after each chained
transformation re-rounds, and the daily-cap amount is emitted already
rounded and formatted — but the rounding mode is Python's
round-half-to-even, not half-up. -/
theorem money_rounding_amended (row : Row) (k1 k2 b : ℚ) :
    ((optimize_bid row k1 k2).2 = some b → isCent b) ∧
    (∀ s, get_daily_cap_suggestion row = some s →
      s = "Suggest pause" ∨
      s = "Add daily cap $" ++ fmt2 (round2 (row.spend / 30 * (1/2)))) := by
  constructor
  · intro hb
    rcases optimize_bid_shape row k1 k2 with h | ⟨nb, lb, hc, h⟩
    · rw [h] at hb
      exact Option.noConfusion hb
    · rw [h] at hb
      rcases finishBid_spec row.effectiveBidFloor nb lb with ⟨_, hfin⟩ | ⟨f, _, _, hfin⟩
      · rw [hfin] at hb
        injection hb with hb
        subst hb
        exact hc
      · rw [hfin] at hb
        injection hb with hb
        subst hb
        exact isCent_round2 f
  · intro s hs
    unfold get_daily_cap_suggestion at hs
    split_ifs at hs with h1 h2 h3
    · injection hs with hs
      exact Or.inl hs.symm
    · injection hs with hs
      exact Or.inr hs.symm

/-- C1 witness: the record rowRedHalf (floor 0.50, bid 1.00, red
segment) receives the 30% decrease to 0.70, which satisfies the
amended floor invariant. -/
theorem floor_invariant_witness :
    (1:ℚ)/2 - 1/200 ≤ 7/10 ∧
    ((1:ℚ)/2 ≤ 7/10 ∨
      ("Decrease bid 30%" = "Meet bid floor" ∧ (7/10:ℚ) = round2 (1/2))) :=
  floor_invariant_amended rowRedHalf (1/10) (1/20) (1/2) "Decrease bid 30%" (7/10) rfl
    (by
      norm_num [optimize_bid, rowRedHalf, at_floor_check, finishBid, apply_floor,
        apply_high_tier, greenHighFillBid, goodIncreasePct, greenIncreasePct,
        yellowDecreasePct, orangeDecreasePct, segment_single, weighted_score, kpi_target,
        pct_above, pct_below, round2, rhe, decLabel, incLabel, Int.fract]
      simp)

/-- C1 counterexample: for the record rowFloorEighth, processed by the
pipeline with targets 0.10/0.05, the floor 0.125 is present and a bid
is produced, yet the recommended bid 0.12 is strictly below the floor
— refuting the claim that recommendedBid ≥ effectiveBidFloor. -/
theorem floor_invariant_counterexample :
    (mark_discard (add_segments_row (1/10) (1/20) rowFloorEighth)).effectiveBidFloor
      = some (1/8) ∧
    optimize_bid (mark_discard (add_segments_row (1/10) (1/20) rowFloorEighth)) (1/10) (1/20)
      = (some "Meet bid floor", some (12/100)) ∧
    ¬ ((1:ℚ)/8 ≤ 12/100) := by
  refine ⟨rfl, ?_, by norm_num⟩
  norm_num [optimize_bid, mark_discard, add_segments_row, should_discard, segment_row,
    segment_single, get_progression, weighted_score, kpi_target, at_floor_check, finishBid,
    apply_floor, apply_high_tier, greenHighFillBid, goodIncreasePct, greenIncreasePct,
    yellowDecreasePct, orangeDecreasePct, round2, rhe, rowFloorEighth, pct_above, pct_below,
    py_lower_active, decLabel, incLabel, Int.fract]
  simp

/-- C5 witness: the bid 0.70 emitted for rowRedHalf is a whole number
of cents. -/
theorem money_rounding_witness : isCent (7/10) :=
  (money_rounding_amended rowRedHalf (1/10) (1/20) (7/10)).1
    (by
      norm_num [optimize_bid, rowRedHalf, at_floor_check, finishBid, apply_floor,
        apply_high_tier, greenHighFillBid, goodIncreasePct, greenIncreasePct,
        yellowDecreasePct, orangeDecreasePct, segment_single, weighted_score, kpi_target,
        pct_above, pct_below, round2, rhe, decLabel, incLabel, Int.fract]
      simp)

/-- C5 counterexample: at spend 1447.50 the daily-cap amount
1447.5/30 × 0.50 = 24.125 lands exactly on half a cent; the code emits
$24.12 (round-half-to-even), while standard half-up rounding
prescribes 24.13 — refuting the claim that the engine rounds half-up. -/
theorem money_rounding_counterexample :
    get_daily_cap_suggestion rowHalfCent = some "Add daily cap $24.12" ∧
    round2 ((2895/2 : ℚ) / 30 * (1/2)) = 2412/100 ∧
    roundHalfUp2 ((2895/2 : ℚ) / 30 * (1/2)) = 2413/100 ∧
    (2412/100 : ℚ) ≠ 2413/100 := by
  refine ⟨?_, by norm_num [round2, rhe], by norm_num [roundHalfUp2], by norm_num⟩
  norm_num [get_daily_cap_suggestion, rowHalfCent, at_floor_check, round2, rhe, fmt2]
  decide

/-- C2: the engine's segmentation takes no weight parameters, so it
classifies the record (primaryKPI 0.10, secondaryKPI 0) against
targets 0.10/0.10 as yellow using the hard-wired 0.8/0.2 weights,
although under the spec's caller-supplied weights (1.0, 0.0) the same
record scores exactly at target and is green: two runs differing only
in weights cannot classify any record differently because the weights
are fixed constants. -/
theorem weights_not_caller_supplied :
    segment_row (1/10) 0 (1/10) (1/10) = "yellow" ∧
    segmentWeightedPerSpec 1 0 (1/10) 0 (1/10) (1/10) = "green" ∧
    segmentWeightedPerSpec (4/5) (1/5) (1/10) 0 (1/10) (1/10)
      = segment_row (1/10) 0 (1/10) (1/10) := by
  refine ⟨?_, ?_, ?_⟩ <;>
    · norm_num [segment_row, segmentWeightedPerSpec, weighted_score, kpi_target]
      try simp

/-- C3: for non-negative KPI values and positive targets with weights
0.8/0.2, the segment classifier agrees exactly with the spec's band
contract (green on score ≥ target; red when both KPIs are 0; else
yellow for pctBelow ≤ 0.50, orange for pctBelow < 1.0, red otherwise),
and Scenario A (0.05, 0.05 against targets 0.10, 0.05) is yellow. -/
theorem segment_bands_refine (p s tP tS : ℚ) (hp : 0 ≤ p) (hs : 0 ≤ s)
    (htP : 0 < tP) (htS : 0 < tS) :
    segment_row p s tP tS = segmentPerSpec p s tP tS ∧
    segment_row (1/20) (1/20) (1/10) (1/20) = "yellow" := by
  refine ⟨rfl, ?_⟩
  norm_num [segment_row, weighted_score, kpi_target]

/-- C3 witness: the refinement instantiated at Scenario A. -/
theorem segment_bands_witness :
    segment_row (1/20) (1/20) (1/10) (1/20) = segmentPerSpec (1/20) (1/20) (1/10) (1/20) ∧
    segment_row (1/20) (1/20) (1/10) (1/20) = "yellow" :=
  segment_bands_refine (1/20) (1/20) (1/10) (1/20) (by norm_num) (by norm_num)
    (by norm_num) (by norm_num)

/-- C4: the discard decision agrees with the spec's ordered
first-true-wins rule list on every record, and Scenario C (spend 50,
preloads 200, status active, installs 0, green segment) is discarded. -/
theorem discard_rules_in_order :
    (∀ r : Row, should_discard r = discardPerSpec r) ∧
    should_discard rowScenarioC = true := by
  constructor
  · intro r
    unfold should_discard discardPerSpec discardRule1 discardRule2 discardRule3 discardRule4
      discardRule5
    simp only [List.findSome?]
    split_ifs <;> rfl
  · norm_num [should_discard, rowScenarioC, py_lower_active]

/-- C6 (amended): when the weighted target is not greater than 0 the
optimizer raises no exception and substitutes fallback constants, but
they are asymmetric: pctAbove is treated as 0 while pctBelow is
treated as 1 before the segment-band branches consult them. -/
theorem pct_fallback_amended (score target : ℚ) (h : target ≤ 0) :
    pct_above score target = 0 ∧ pct_below score target = 1 := by
  unfold pct_above pct_below
  rw [if_neg (not_lt.mpr h), if_neg (not_lt.mpr h)]
  exact ⟨rfl, rfl⟩

/-- C6 witness: the fallbacks at score 5 and target 0. -/
theorem pct_fallback_witness : pct_above 5 0 = 0 ∧ pct_below 5 0 = 1 :=
  pct_fallback_amended 5 0 (by norm_num)

/-- C6 counterexample: with a zero target, pctBelow is 1, not the 0
the claim states. -/
theorem pct_fallback_counterexample : pct_below 0 0 = 1 ∧ pct_below 0 0 ≠ 0 := by
  constructor <;> norm_num [pct_below]

/-- C7: the run core performs no configuration validation — handed the
non-positive primary KPI target −0.10 it does not fail before row
processing but classifies the row (green, since any non-negative score
meets a non-positive target) and computes its bid. -/
theorem no_config_validation :
    (run_core (-1/10) (1/20) [rowHealthy]).map (fun o => o.row.segment) = ["green"] ∧
    (run_core (-1/10) (1/20) [rowHealthy]).map (fun o => o.recommendedBid)
      = [some (11/10)] := by
  have hbid : optimize_bid (mark_discard (add_segments_row (-1/10) (1/20) rowHealthy))
      (-1/10) (1/20) = (some "Increase bid 10%", some (11/10)) := by
    norm_num [optimize_bid, mark_discard, add_segments_row, segment_row, get_progression,
      weighted_score, kpi_target, should_discard, at_floor_check, finishBid, apply_floor,
      apply_high_tier, greenHighFillBid, goodIncreasePct, greenIncreasePct, yellowDecreasePct,
      orangeDecreasePct, pct_above, pct_below, round2, rhe, segment_single, py_lower_active,
      incLabel, decLabel, Int.fract, rowHealthy]
    try simp
    try decide
  constructor
  · norm_num [run_core, rowHealthy, mark_discard, add_segments_row, segment_row,
      get_progression, weighted_score, kpi_target, should_discard, py_lower_active]
  · simp only [run_core, List.map_cons, List.map_nil]
    rw [hbid]

/-- C8: the daily-cap advisor agrees with the spec's contract on every
record (null at spend ≤ 1000; pause when both KPIs are 0; the rounded,
two-decimal formatted cap when at floor with performance; null
otherwise), and Scenario E (spend 1500, floor 0.50, bid at floor,
primary KPI 0.02) yields Add daily cap $25.00. -/
theorem daily_cap_contract :
    (∀ r : Row, get_daily_cap_suggestion r = capPerSpec r) ∧
    get_daily_cap_suggestion rowScenarioE = some "Add daily cap $25.00" := by
  refine ⟨fun r => rfl, ?_⟩
  norm_num [get_daily_cap_suggestion, rowScenarioE, at_floor_check, round2, rhe, fmt2]
  decide

/-- C10: for non-negative KPI inputs the segment classifiers reach
their unguarded division only when the dividing target is strictly
positive — the green check fires first for a non-positive target — so
neither segment_row nor segment_single can raise a division-by-zero
error: the explicitly-checked variants always return some value. -/
theorem segment_division_safe (r1 r2 k1 k2 v k : ℚ)
    (h1 : 0 ≤ r1) (h2 : 0 ≤ r2) (hv : 0 ≤ v) :
    (segment_rowChecked r1 r2 k1 k2 = some (segment_row r1 r2 k1 k2) ∧
      (¬ weighted_score r1 r2 ≥ kpi_target k1 k2 → 0 < kpi_target k1 k2)) ∧
    (segment_singleChecked v k = some (segment_single v k) ∧
      (¬ v ≥ k → 0 < k)) := by
  have hs : (0:ℚ) ≤ weighted_score r1 r2 := by
    unfold weighted_score
    linarith
  refine ⟨⟨?_, fun hge => lt_of_le_of_lt hs (lt_of_not_ge hge)⟩,
    ⟨?_, fun hge => lt_of_le_of_lt hv (lt_of_not_ge hge)⟩⟩
  · unfold segment_rowChecked segment_row
    by_cases hge : weighted_score r1 r2 ≥ kpi_target k1 k2
    · rw [if_pos hge, if_pos hge]
    · rw [if_neg hge, if_neg hge]
      by_cases hz : r1 = 0 ∧ r2 = 0
      · rw [if_pos hz, if_pos hz]
      · rw [if_neg hz, if_neg hz]
        have hne : kpi_target k1 k2 ≠ 0 :=
          ne_of_gt (lt_of_le_of_lt hs (lt_of_not_ge hge))
        unfold qdiv
        rw [if_neg hne]
        dsimp only
        split_ifs <;> rfl
  · unfold segment_singleChecked segment_single
    by_cases hge : v ≥ k
    · rw [if_pos hge, if_pos hge]
    · rw [if_neg hge, if_neg hge]
      by_cases hz : v = 0
      · rw [if_pos hz, if_pos hz]
      · rw [if_neg hz, if_neg hz]
        have hne : k ≠ 0 := ne_of_gt (lt_of_le_of_lt hv (lt_of_not_ge hge))
        unfold qdiv
        rw [if_neg hne]
        dsimp only
        split_ifs <;> rfl

/-- C10 witness: the checked classifiers instantiated at Scenario A's
values. -/
theorem segment_division_safe_witness :
    (segment_rowChecked (1/20) (1/20) (1/10) (1/20)
        = some (segment_row (1/20) (1/20) (1/10) (1/20)) ∧
      (¬ weighted_score (1/20) (1/20) ≥ kpi_target (1/10) (1/20) →
        0 < kpi_target (1/10) (1/20))) ∧
    (segment_singleChecked (1/20) (1/20) = some (segment_single (1/20) (1/20)) ∧
      (¬ (1:ℚ)/20 ≥ 1/20 → 0 < (1:ℚ)/20)) :=
  segment_division_safe (1/20) (1/20) (1/10) (1/20) (1/20) (1/20)
    (by norm_num) (by norm_num) (by norm_num)

end AdOps
